import Mathlib

/-!
Verification of the runtime feature-flag evaluation engine
(packages/flags/src/store.ts) against its specification.

The TypeScript source is shallowly embedded: machine-level JavaScript
number coercions (ToInt32, the remainder operator, Math.abs) are made
explicit over Int; the process environment (process.env) and the Number
builtin — both external to the repository — are passed in as an explicit
host parameter; the Map of overrides and the object registry are
association lists; thrown errors become Except.error.
-/

namespace GmackoFlags

/-! ## JavaScript primitive models -/

/-- ECMAScript ToInt32: wrap an integer into the signed 32-bit range.
JavaScript applies this to the operands and result of the bitwise
operators used in hashToPercentage (the left shift and the and). -/
def toInt32 (n : Int) : Int :=
  let r := n % 4294967296
  if r < 2147483648 then r else r - 4294967296

/-- JavaScript remainder operator on integers: truncated modulus, with
the sign of the dividend.  Int.tmod has exactly these semantics. -/
def jsRem (a b : Int) : Int :=
  Int.tmod a b

/-- JavaScript Math.abs on an integer, as a natural number. -/
def jsAbs (a : Int) : Nat :=
  a.natAbs

/-- JavaScript nullish coalescing a ?? b on possibly-absent values:
the left operand wins whenever it is present (even when it is an empty
string, which is present but falsy). -/
def jsNullish {α : Type} (a b : Option α) : Option α :=
  match a with
  | some x => some x
  | none => b

/-- UTF-16 code units of a character, as read by String.charCodeAt:
one unit below 0x10000, a surrogate pair above. -/
def utf16CodeUnits (c : Char) : List Nat :=
  let n := c.toNat
  if n < 65536 then [n]
  else
    let m := n - 65536
    [55296 + m / 1024, 56320 + m % 1024]

/-- The UTF-16 code-unit sequence of a string: what the source loop
indexed by charCodeAt iterates over. -/
def stringCodeUnits (s : String) : List Nat :=
  s.data.flatMap utf16CodeUnits

/-! ## hashToPercentage (store.ts lines 25-33) -/

/-- One iteration of the hash loop of hashToPercentage:
hash = (hash << 5) - hash + char, then hash = hash & hash.
The shift operates on ToInt32 of its operand and wraps, and the final
bitwise and is what coerces the float sum back to a 32-bit integer. -/
def hashStep (hash : Int) (char : Nat) : Int :=
  toInt32 (toInt32 (hash * 32) - hash + char)

/-- The hash accumulator after consuming a whole code-unit sequence,
starting from 0 as in the source. -/
def hashLoop (units : List Nat) : Int :=
  units.foldl hashStep 0

/-- hashToPercentage (store.ts lines 25-33): fold the rolling hash over
the code units of the input, then return Math.abs(hash % 100), an
integer bucket. -/
def hashToPercentage (input : String) : Int :=
  (jsAbs (jsRem (hashLoop (stringCodeUnits input)) 100) : Nat)

/-! ## Data model

The value carried by a flag is one of the scalar types boolean, number
or string.  Numeric values are carried as Int: the engine never performs
arithmetic on flag values, it only stores, compares and returns them, so
the carrier of the numeric case is irrelevant to control flow (the one
numeric computation, the Number builtin applied to an external-config
string, is modelled as a host-supplied function below). -/

inductive FlagValue where
  | bool (b : Bool)
  | num (n : Int)
  | str (s : String)
deriving DecidableEq, Repr

/-- RolloutConfig: percentage plus optional allowlist and blocklist.
The source declares percentage as a number documented as an integer in
the range 0 to 100. -/
structure RolloutConfig where
  percentage : Int
  allowlist : Option (List String) := none
  blocklist : Option (List String) := none
deriving DecidableEq, Repr

/-- FlagDefinition: default value, optional description, optional
rollout rule, optional per-environment value table (a record keyed by
environment name, embedded as an association list). -/
structure FlagDefinition where
  defaultValue : FlagValue
  description : Option String := none
  rollout : Option RolloutConfig := none
  environments : Option (List (String × FlagValue)) := none
deriving DecidableEq, Repr

/-- FlagContext: every field optional.  The shape is given by the
package types module (re-exported by index.ts) and section 3 of the
spec; the evaluation semantics below come entirely from store.ts, which
reads only userId, organizationId and email. -/
structure FlagContext where
  userId : Option String := none
  email : Option String := none
  organizationId : Option String := none
  environment : Option String := none
  attributes : List (String × String) := []
deriving DecidableEq, Repr

/-- FlagEvaluationResult: value, reason and flag name.  The reason is a
string literal in the source (override, environment, rollout, allowlist,
blocklist, default), kept as a string here. -/
structure FlagEvaluationResult where
  value : FlagValue
  reason : String
  flagName : String
deriving DecidableEq, Repr

/-- The host facilities the store reads but does not own: the process
environment (a key to optional text lookup) and the JavaScript Number
builtin used to parse numeric external-config text.  Number is total in
JavaScript (unparseable text yields NaN, still a number), so it is
modelled as an arbitrary total function into the numeric carrier; no
branch of the engine inspects its result. -/
structure HostEnv where
  envVars : String → Option String
  jsNumber : String → Int

/-! ## evaluateRollout (store.ts lines 38-87) -/

/-- The identifier used for rollout decisions:
context?.userId ?? context?.organizationId ?? context?.email.
Nullish coalescing keeps a present-but-empty string. -/
def resolveIdentifier (context : Option FlagContext) : Option String :=
  jsNullish (context.bind FlagContext.userId)
    (jsNullish (context.bind FlagContext.organizationId)
      (context.bind FlagContext.email))

/-- Membership test list?.includes(x): an absent list yields undefined,
which is falsy. -/
def optIncludes (l : Option (List String)) (x : String) : Bool :=
  match l with
  | none => false
  | some xs => xs.contains x

/-- The enabled value used by the allowlist and percentage branches:
true for boolean flags, the default value unchanged otherwise. -/
def enabledValue : FlagValue → FlagValue
  | FlagValue.bool _ => FlagValue.bool true
  | v => v

/-- evaluateRollout (store.ts lines 38-87).  Absent rollout config
returns null immediately.  Each of the three branches is guarded by the
truthiness of the identifier, so an absent identifier (modelled by the
none branch of the match) and an empty-string identifier both fall past
every branch to the final null. -/
def evaluateRollout (flagDef : FlagDefinition) (flagName : String)
    (context : Option FlagContext) : Option FlagEvaluationResult :=
  match flagDef.rollout with
  | none => none
  | some rollout =>
    match resolveIdentifier context with
    | none => none
    | some identifier =>
      if identifier ≠ "" ∧ optIncludes rollout.blocklist identifier then
        some { value := flagDef.defaultValue, reason := "blocklist", flagName := flagName }
      else if identifier ≠ "" ∧ optIncludes rollout.allowlist identifier then
        some { value := enabledValue flagDef.defaultValue, reason := "allowlist", flagName := flagName }
      else if identifier ≠ "" ∧
          hashToPercentage (flagName ++ ":" ++ identifier) < rollout.percentage then
        some { value := enabledValue flagDef.defaultValue, reason := "rollout", flagName := flagName }
      else none

/-! ## getFlag (store.ts lines 140-204) -/

/-- String.prototype.toUpperCase, character by character over the
string contents; modelled on the ASCII range by Char.toUpper, where
every key in this development lives. -/
def jsToUpperCase (s : String) : String :=
  String.mk (s.data.map Char.toUpper)

/-- String.prototype.replace with the global hyphen pattern of the
source (slash-hyphen-slash-g) and an underscore replacement: a
character-wise substitution of hyphens only. -/
def replaceHyphens (s : String) : String :=
  String.mk (s.data.map (fun c => if c = '-' then '_' else c))

/-- The external-config key of a flag (store.ts line 161):
FLAG_ prefix, then flagName.toUpperCase() with hyphens replaced by
underscores. -/
def envKeyOf (flagName : String) : String :=
  "FLAG_" ++ replaceHyphens (jsToUpperCase flagName)

/-- Parsing of an external-config text value, driven by the runtime type
of the default value (store.ts lines 166-173): boolean flags map the
exact texts true and 1 to true and everything else to false; number
flags apply the Number builtin; string flags take the text verbatim. -/
def parseEnvValue (defaultValue : FlagValue) (host : HostEnv)
    (envValue : String) : FlagValue :=
  match defaultValue with
  | FlagValue.bool _ => FlagValue.bool (envValue == "true" || envValue == "1")
  | FlagValue.num _ => FlagValue.num (host.jsNumber envValue)
  | FlagValue.str _ => FlagValue.str envValue

/-- getFlag (store.ts lines 140-204).  Throws (Except.error) exactly
when the flag name is absent from the registry; otherwise resolves by
the five-tier precedence chain: runtime override, external-config
override, environment-specific value, rollout, default. -/
def getFlag (definitions : List (String × FlagDefinition))
    (overrides : List (String × FlagValue)) (currentEnvironment : String)
    (host : HostEnv) (flagName : String) (context : Option FlagContext) :
    Except String FlagEvaluationResult :=
  match List.lookup flagName definitions with
  | none => Except.error ("Unknown flag: " ++ flagName)
  | some flagDef =>
    -- 1. Check for runtime override
    match List.lookup flagName overrides with
    | some v => Except.ok { value := v, reason := "override", flagName := flagName }
    | none =>
      -- 2. Check for environment variable override
      match host.envVars (envKeyOf flagName) with
      | some envValue =>
        Except.ok { value := parseEnvValue flagDef.defaultValue host envValue,
                    reason := "override", flagName := flagName }
      | none =>
        -- 3. Check for environment-specific value
        match flagDef.environments.bind
            (fun table => List.lookup currentEnvironment table) with
        | some envSpecificValue =>
          Except.ok { value := envSpecificValue, reason := "environment",
                      flagName := flagName }
        | none =>
          -- 4. Evaluate rollout rules
          match evaluateRollout flagDef flagName context with
          | some rolloutResult => Except.ok rolloutResult
          | none =>
            -- 5. Return default value
            Except.ok { value := flagDef.defaultValue, reason := "default",
                        flagName := flagName }

/-- getFlagValue (store.ts lines 209-214): the value field of getFlag. -/
def getFlagValue (definitions : List (String × FlagDefinition))
    (overrides : List (String × FlagValue)) (currentEnvironment : String)
    (host : HostEnv) (flagName : String) (context : Option FlagContext) :
    Except String FlagValue :=
  (getFlag definitions overrides currentEnvironment host flagName context).map
    FlagEvaluationResult.value

/-- JavaScript Boolean coercion of a flag value, as used by isEnabled.
NaN is outside the integer carrier, so numeric truthiness is n not 0. -/
def jsBoolean : FlagValue → Bool
  | FlagValue.bool b => b
  | FlagValue.num n => n != 0
  | FlagValue.str s => s != ""

/-! ## The store closure (createFlagStore, store.ts lines 92-259)

The closure state is the registry constant plus the two mutable cells;
each operation of the returned record becomes an explicit
state-to-result-and-state function. -/

structure FlagStoreState where
  definitions : List (String × FlagDefinition)
  overrides : List (String × FlagValue)
  currentEnvironment : String
deriving DecidableEq, Repr

/-- Map.prototype.set on the association list embedding: replace the
entry in place when the key is present, append otherwise. -/
def mapSet (m : List (String × FlagValue)) (k : String) (v : FlagValue) :
    List (String × FlagValue) :=
  if m.any (fun p => p.1 == k) then
    m.map (fun p => if p.1 == k then (k, v) else p)
  else
    m ++ [(k, v)]

/-- Map.prototype.delete on the association list embedding. -/
def mapDelete (m : List (String × FlagValue)) (k : String) :
    List (String × FlagValue) :=
  m.filter (fun p => p.1 != k)

/-- createFlagStore (store.ts lines 92-103): empty overrides map,
current environment initialised to process.env.NODE_ENV ?? development. -/
def createFlagStore (definitions : List (String × FlagDefinition))
    (host : HostEnv) : FlagStoreState :=
  { definitions := definitions
    overrides := []
    currentEnvironment :=
      match host.envVars ("NODE_ENV") with
      | some env => env
      | none => "development" }

/-- setEnvironment (store.ts lines 105-110). -/
def setEnvironmentOp (s : FlagStoreState) (env : String) : FlagStoreState :=
  { s with currentEnvironment := env }

/-- getEnvironment (store.ts lines 112-117). -/
def getEnvironmentOp (s : FlagStoreState) : String × FlagStoreState :=
  (s.currentEnvironment, s)

/-- setOverride (store.ts lines 119-127). -/
def setOverrideOp (s : FlagStoreState) (flagName : String) (value : FlagValue) :
    FlagStoreState :=
  { s with overrides := mapSet s.overrides flagName value }

/-- clearOverride (store.ts lines 129-134). -/
def clearOverrideOp (s : FlagStoreState) (flagName : String) : FlagStoreState :=
  { s with overrides := mapDelete s.overrides flagName }

/-- clearAllOverrides (store.ts lines 136-141). -/
def clearAllOverridesOp (s : FlagStoreState) : FlagStoreState :=
  { s with overrides := [] }

/-- getFlag as a store operation: reads the closure state, writes none. -/
def getFlagOp (s : FlagStoreState) (host : HostEnv) (flagName : String)
    (context : Option FlagContext) :
    Except String FlagEvaluationResult × FlagStoreState :=
  (getFlag s.definitions s.overrides s.currentEnvironment host flagName context, s)

/-- getFlagValue as a store operation. -/
def getFlagValueOp (s : FlagStoreState) (host : HostEnv) (flagName : String)
    (context : Option FlagContext) : Except String FlagValue × FlagStoreState :=
  (getFlagValue s.definitions s.overrides s.currentEnvironment host flagName context, s)

/-- getAllFlags (store.ts lines 216-227): evaluate getFlagValue for
every key of the registry, in registry insertion order. -/
def getAllFlagsOp (s : FlagStoreState) (host : HostEnv)
    (context : Option FlagContext) :
    List (String × Except String FlagValue) × FlagStoreState :=
  (s.definitions.map (fun p =>
      (p.1, getFlagValue s.definitions s.overrides s.currentEnvironment host p.1 context)),
   s)

/-- isEnabled (store.ts lines 229-237): Boolean coercion of the value. -/
def isEnabledOp (s : FlagStoreState) (host : HostEnv) (flagName : String)
    (context : Option FlagContext) : Except String Bool × FlagStoreState :=
  (((getFlagValue s.definitions s.overrides s.currentEnvironment host flagName
      context).map jsBoolean), s)

/-- getDefinitions (store.ts lines 239-244): the registry itself. -/
def getDefinitionsOp (s : FlagStoreState) :
    List (String × FlagDefinition) × FlagStoreState :=
  (s.definitions, s)

/-! ## Concrete fixtures used by witnesses and counterexamples -/

/-- A host with no external configuration; the Number builtin is an
arbitrary stand-in, its result never being inspected by the engine. -/
def hostEmpty : HostEnv :=
  { envVars := fun _ => none, jsNumber := fun _ => 0 }

def c4input : String := "betaFeatures:user-42"

def emptyStr : String := ""

/-- A registered flag whose override, external-config, environment and
rollout tiers can all fire at once: boolean default false, an
environment entry for production, and a hundred-percent rollout. -/
def wName : String := "beta-mode"

def wRoll : RolloutConfig := { percentage := 100 }

def wDef : FlagDefinition :=
  { defaultValue := FlagValue.bool false
    rollout := some wRoll
    environments := some [("production", FlagValue.bool true)] }

def wDefs : List (String × FlagDefinition) := [(wName, wDef)]

def wOvr : List (String × FlagValue) := [(wName, FlagValue.bool true)]

/-- A host whose external configuration sets FLAG_BETA_MODE to 1. -/
def wHost : HostEnv :=
  { envVars := fun k => if k == "FLAG_BETA_MODE" then some ("1") else none
    jsNumber := fun _ => 0 }

def wCtx : Option FlagContext := some { userId := some ("user-42") }

def prodEnv : String := "production"

def stagingEnv : String := "staging"

def unknownName : String := "doesNotExist"

/-- Rollout rule with an identifier on both lists and a fifty percent
threshold, for exercising every branch of the rollout evaluator. -/
def rName : String := "betaFeatures"

def rRoll : RolloutConfig :=
  { percentage := 50
    allowlist := some ["alice", "carol"]
    blocklist := some ["bob", "carol"] }

def rDef : FlagDefinition :=
  { defaultValue := FlagValue.bool false, rollout := some rRoll }

/-- Contexts with an empty-string identifier in front of a non-empty
fallback, exercising the nullish-coalescing edge. -/
def c10a : FlagContext :=
  { userId := some emptyStr, organizationId := some ("org-1") }

def c10b : FlagContext :=
  { organizationId := some emptyStr, email := some ("user@example.com") }

def c10Roll : RolloutConfig :=
  { percentage := 100, allowlist := some [emptyStr], blocklist := some [emptyStr] }

def c10Def : FlagDefinition :=
  { defaultValue := FlagValue.bool false, rollout := some c10Roll }

def c10Name : String := "feat-x"

def ctxCarol : Option FlagContext := some { userId := some ("carol") }

def ctxAlice : Option FlagContext := some { userId := some ("alice") }

def ctxHit : Option FlagContext := some { userId := some ("user-42") }

def ctxMiss : Option FlagContext := some { userId := some ("user-99") }

/-- A flag name containing a dot, a non-alphanumeric character the
source regex does not touch. -/
def c5name : String := "a.b"

/-- Modelled from the spec: the claimed external-config key convention
(claim C5), FLAG_ followed by the flag name uppercased with every
non-alphanumeric character replaced by an underscore. -/
def specEnvKeyClaimed (flagName : String) : String :=
  "FLAG_" ++ String.mk (flagName.data.map
    (fun c => if (Char.toUpper c).isAlphanum then Char.toUpper c else '_'))

/-- Modelled from the spec, amended: FLAG_ followed by the flag name
uppercased with hyphens — and hyphens only — replaced by underscores. -/
def specEnvKeyAmended (flagName : String) : String :=
  "FLAG_" ++ String.mk (flagName.data.map
    (fun c => if Char.toUpper c = '-' then '_' else Char.toUpper c))

/-- A number-typed flag with an environment entry beneath the
external-config tier, and a host that supplies unparseable numeric
text for it. -/
def nName : String := "timeout"

def nDef : FlagDefinition :=
  { defaultValue := FlagValue.num 5
    environments := some [("development", FlagValue.num 7)] }

def nDefs : List (String × FlagDefinition) := [(nName, nDef)]

def devEnv : String := "development"

def nHost : HostEnv :=
  { envVars := fun k => if k == "FLAG_TIMEOUT" then some ("abc") else none
    jsNumber := fun _ => 0 }

/-- Two contexts agreeing on the three identifier fields and differing
in the environment and attributes fields. -/
def c9a : FlagContext :=
  { userId := some ("user-42"), environment := some prodEnv,
    attributes := [("tier", "gold")] }

def c9b : FlagContext :=
  { userId := some ("user-42"), environment := some stagingEnv,
    attributes := [] }

/-- Decidable equality for Except results, used to evaluate concrete
evaluation outcomes in closed statements. -/
instance {ε α : Type} [DecidableEq ε] [DecidableEq α] : DecidableEq (Except ε α) :=
  fun a b =>
    match a, b with
    | Except.error e, Except.error f =>
      if h : e = f then Decidable.isTrue (congrArg Except.error h)
      else Decidable.isFalse (fun c => h (Except.error.inj c))
    | Except.ok x, Except.ok y =>
      if h : x = y then Decidable.isTrue (congrArg Except.ok h)
      else Decidable.isFalse (fun c => h (Except.ok.inj c))
    | Except.error _, Except.ok _ => Decidable.isFalse (fun c => Except.noConfusion c)
    | Except.ok _, Except.error _ => Decidable.isFalse (fun c => Except.noConfusion c)

/-! ## Helper lemmas -/

/-- The absolute value of a truncated remainder by 100 is below 100,
whatever the sign of the dividend. -/
theorem jsAbs_jsRem_lt (a : Int) : jsAbs (jsRem a 100) < 100 := by
  cases a with
  | ofNat n =>
    show (Int.tmod (Int.ofNat n) 100).natAbs < 100
    have h : Int.tmod (Int.ofNat n) 100 = Int.ofNat (n % 100) := rfl
    rw [h]
    exact Nat.mod_lt n (by decide)
  | negSucc n =>
    show (Int.tmod (Int.negSucc n) 100).natAbs < 100
    have h : Int.tmod (Int.negSucc n) 100 = -Int.ofNat ((n + 1) % 100) := rfl
    rw [h, Int.natAbs_neg]
    exact Nat.mod_lt (n + 1) (by decide)

/-! ## Claim theorems -/

/-- C4: for every input string, hashToPercentage yields an integer in
the range 0 to 99, and it is deterministic: two invocations on equal
strings produce the same bucket. -/
theorem hashToPercentage_range_and_stable :
    ∀ s : String,
      (0 ≤ hashToPercentage s ∧ hashToPercentage s ≤ 99) ∧
        ∀ t : String, t = s → hashToPercentage t = hashToPercentage s := by
  intro s
  refine ⟨⟨?_, ?_⟩, ?_⟩
  · exact Int.natCast_nonneg _
  · have h := jsAbs_jsRem_lt (hashLoop (stringCodeUnits s))
    unfold hashToPercentage
    omega
  · intro t ht
    rw [ht]

theorem hashToPercentage_range_and_stable_witness :
    (0 ≤ hashToPercentage c4input ∧ hashToPercentage c4input ≤ 99) ∧
      hashToPercentage c4input = hashToPercentage c4input :=
  ⟨(hashToPercentage_range_and_stable c4input).1,
   (hashToPercentage_range_and_stable c4input).2 c4input rfl⟩

/-- C1: getFlag is a pure function of the registry, overrides map,
current environment, host lookup, flag name and context: a repeated
call, issued on the state left behind by a first call at the same
arguments, returns the identical evaluation result, and the first call
left the state unchanged. -/
theorem getFlag_deterministic_repeated :
    ∀ (s : FlagStoreState) (host : HostEnv) (flagName : String)
      (context : Option FlagContext),
      (getFlagOp ((getFlagOp s host flagName context).2) host flagName context).1 =
          (getFlagOp s host flagName context).1 ∧
        (getFlagOp s host flagName context).2 = s := by
  intro s host flagName context
  exact ⟨rfl, rfl⟩

/-- C8: the read operations leave the whole store state unchanged, and
no operation — the mutators included — changes the registry of flag
definitions. -/
theorem store_operations_frame :
    ∀ (s : FlagStoreState) (host : HostEnv) (flagName : String)
      (context : Option FlagContext) (v : FlagValue) (env : String),
      (getFlagOp s host flagName context).2 = s ∧
        (getFlagValueOp s host flagName context).2 = s ∧
        (getAllFlagsOp s host context).2 = s ∧
        (isEnabledOp s host flagName context).2 = s ∧
        (getEnvironmentOp s).2 = s ∧
        (getDefinitionsOp s).2 = s ∧
        (setOverrideOp s flagName v).definitions = s.definitions ∧
        (clearOverrideOp s flagName).definitions = s.definitions ∧
        (clearAllOverridesOp s).definitions = s.definitions ∧
        (setEnvironmentOp s env).definitions = s.definitions := by
  intro s host flagName context v env
  exact ⟨rfl, rfl, rfl, rfl, rfl, rfl, rfl, rfl, rfl, rfl⟩

/-- C2: getFlag resolves a registered flag by the five-tier precedence
chain, first match wins: runtime override, external-config override,
environment-specific value, rollout result, default value. -/
theorem getFlag_precedence_chain :
    ∀ (defs : List (String × FlagDefinition)) (ovr : List (String × FlagValue))
      (env : String) (host : HostEnv) (flagName : String)
      (context : Option FlagContext) (flagDef : FlagDefinition),
      List.lookup flagName defs = some flagDef →
      (∀ v, List.lookup flagName ovr = some v →
          getFlag defs ovr env host flagName context =
            Except.ok { value := v, reason := "override", flagName := flagName }) ∧
      (List.lookup flagName ovr = none →
          ∀ ev, host.envVars (envKeyOf flagName) = some ev →
            getFlag defs ovr env host flagName context =
              Except.ok { value := parseEnvValue flagDef.defaultValue host ev,
                          reason := "override", flagName := flagName }) ∧
      (List.lookup flagName ovr = none →
          host.envVars (envKeyOf flagName) = none →
          ∀ v, flagDef.environments.bind (fun t => List.lookup env t) = some v →
            getFlag defs ovr env host flagName context =
              Except.ok { value := v, reason := "environment", flagName := flagName }) ∧
      (List.lookup flagName ovr = none →
          host.envVars (envKeyOf flagName) = none →
          flagDef.environments.bind (fun t => List.lookup env t) = none →
          ∀ r, evaluateRollout flagDef flagName context = some r →
            getFlag defs ovr env host flagName context = Except.ok r) ∧
      (List.lookup flagName ovr = none →
          host.envVars (envKeyOf flagName) = none →
          flagDef.environments.bind (fun t => List.lookup env t) = none →
          evaluateRollout flagDef flagName context = none →
          getFlag defs ovr env host flagName context =
            Except.ok { value := flagDef.defaultValue, reason := "default",
                        flagName := flagName }) := by
  intro defs ovr env host flagName context flagDef hdef
  refine ⟨?_, ?_, ?_, ?_, ?_⟩
  · intro v hv
    simp only [getFlag, hdef, hv]
  · intro h1 ev h2
    simp only [getFlag, hdef, h1, h2]
  · intro h1 h2 v h3
    simp only [getFlag, hdef, h1, h2, h3]
  · intro h1 h2 h3 r h4
    simp only [getFlag, hdef, h1, h2, h3, h4]
  · intro h1 h2 h3 h4
    simp only [getFlag, hdef, h1, h2, h3, h4]

set_option maxRecDepth 40000 in
theorem getFlag_precedence_chain_witness :
    (getFlag wDefs wOvr prodEnv wHost wName wCtx =
        Except.ok { value := FlagValue.bool true, reason := "override",
                    flagName := wName }) ∧
      (getFlag wDefs [] prodEnv wHost wName wCtx =
        Except.ok { value := FlagValue.bool true, reason := "override",
                    flagName := wName }) ∧
      (getFlag wDefs [] prodEnv hostEmpty wName wCtx =
        Except.ok { value := FlagValue.bool true, reason := "environment",
                    flagName := wName }) ∧
      (getFlag wDefs [] stagingEnv hostEmpty wName wCtx =
        Except.ok { value := FlagValue.bool true, reason := "rollout",
                    flagName := wName }) ∧
      (getFlag wDefs [] stagingEnv hostEmpty wName none =
        Except.ok { value := FlagValue.bool false, reason := "default",
                    flagName := wName }) :=
  ⟨(getFlag_precedence_chain wDefs wOvr prodEnv wHost wName wCtx wDef (by decide)).1
      (FlagValue.bool true) (by decide),
   (getFlag_precedence_chain wDefs [] prodEnv wHost wName wCtx wDef (by decide)).2.1
      (by decide) ("1") (by decide),
   (getFlag_precedence_chain wDefs [] prodEnv hostEmpty wName wCtx wDef (by decide)).2.2.1
      (by decide) (by decide) (FlagValue.bool true) (by decide),
   (getFlag_precedence_chain wDefs [] stagingEnv hostEmpty wName wCtx wDef (by decide)).2.2.2.1
      (by decide) (by decide) (by decide)
      { value := FlagValue.bool true, reason := "rollout", flagName := wName }
      (by decide),
   (getFlag_precedence_chain wDefs [] stagingEnv hostEmpty wName none wDef (by decide)).2.2.2.2
      (by decide) (by decide) (by decide) (by decide)⟩

/-- C7: getFlag errors exactly on names absent from the registry, with
the unknown-flag message; for every registered name it returns a valid
evaluation result whatever the context or environment label. -/
theorem getFlag_error_iff_unknown :
    ∀ (defs : List (String × FlagDefinition)) (ovr : List (String × FlagValue))
      (env : String) (host : HostEnv) (flagName : String)
      (context : Option FlagContext),
      (List.lookup flagName defs = none →
        getFlag defs ovr env host flagName context =
          Except.error ("Unknown flag: " ++ flagName)) ∧
      (∀ flagDef, List.lookup flagName defs = some flagDef →
        ∃ r, getFlag defs ovr env host flagName context = Except.ok r) := by
  intro defs ovr env host flagName context
  constructor
  · intro h
    unfold getFlag
    rw [h]
  · intro flagDef h
    cases h1 : List.lookup flagName ovr with
    | some v => exact ⟨_, by simp only [getFlag, h, h1]; rfl⟩
    | none =>
      cases h2 : host.envVars (envKeyOf flagName) with
      | some ev => exact ⟨_, by simp only [getFlag, h, h1, h2]; rfl⟩
      | none =>
        cases h3 : flagDef.environments.bind (fun t => List.lookup env t) with
        | some v => exact ⟨_, by simp only [getFlag, h, h1, h2, h3]; rfl⟩
        | none =>
          cases h4 : evaluateRollout flagDef flagName context with
          | some r => exact ⟨_, by simp only [getFlag, h, h1, h2, h3, h4]; rfl⟩
          | none => exact ⟨_, by simp only [getFlag, h, h1, h2, h3, h4]; rfl⟩

theorem getFlag_error_iff_unknown_witness :
    (getFlag wDefs [] prodEnv hostEmpty unknownName none =
        Except.error ("Unknown flag: " ++ unknownName)) ∧
      ∃ r, getFlag wDefs [] prodEnv hostEmpty wName none = Except.ok r :=
  ⟨(getFlag_error_iff_unknown wDefs [] prodEnv hostEmpty unknownName none).1 rfl,
   (getFlag_error_iff_unknown wDefs [] prodEnv hostEmpty wName none).2 wDef rfl⟩

/-- C9: two contexts agreeing on userId, organizationId and email give
identical getFlag results, whatever their environment and attributes
fields hold: evaluation reads only the three identifier fields of the
context, and environment resolution reads only the store environment. -/
theorem context_extras_irrelevant :
    ∀ (defs : List (String × FlagDefinition)) (ovr : List (String × FlagValue))
      (env : String) (host : HostEnv) (flagName : String) (c1 c2 : FlagContext),
      c1.userId = c2.userId → c1.organizationId = c2.organizationId →
      c1.email = c2.email →
      getFlag defs ovr env host flagName (some c1) =
        getFlag defs ovr env host flagName (some c2) := by
  intro defs ovr env host flagName c1 c2 hu ho he
  have hres : resolveIdentifier (some c1) = resolveIdentifier (some c2) := by
    show jsNullish c1.userId (jsNullish c1.organizationId c1.email) =
      jsNullish c2.userId (jsNullish c2.organizationId c2.email)
    rw [hu, ho, he]
  have hev : ∀ flagDef : FlagDefinition,
      evaluateRollout flagDef flagName (some c1) =
        evaluateRollout flagDef flagName (some c2) := by
    intro flagDef
    unfold evaluateRollout
    rw [hres]
  unfold getFlag
  simp only [hev]

theorem context_extras_irrelevant_witness :
    getFlag wDefs [] stagingEnv hostEmpty wName (some c9a) =
      getFlag wDefs [] stagingEnv hostEmpty wName (some c9b) :=
  context_extras_irrelevant wDefs [] stagingEnv hostEmpty wName c9a c9b rfl rfl rfl

/-- C10: a present-but-empty identifier is kept by nullish coalescing
(it does not fall through to the next identifier field) yet is treated
as anonymous: the rollout evaluator returns null, skipping blocklist,
allowlist and percentage checks.  Stated for an empty userId over any
other fields, and for an empty organizationId with userId absent. -/
theorem empty_identifier_anonymous :
    ∀ (flagDef : FlagDefinition) (flagName : String) (c : FlagContext),
      (c.userId = some emptyStr →
        resolveIdentifier (some c) = some emptyStr ∧
          evaluateRollout flagDef flagName (some c) = none) ∧
      (c.userId = none → c.organizationId = some emptyStr →
        resolveIdentifier (some c) = some emptyStr ∧
          evaluateRollout flagDef flagName (some c) = none) := by
  intro flagDef flagName c
  constructor
  · intro hu
    have hres : resolveIdentifier (some c) = some emptyStr := by
      show jsNullish c.userId (jsNullish c.organizationId c.email) = some emptyStr
      rw [hu]
      rfl
    refine ⟨hres, ?_⟩
    unfold evaluateRollout
    rcases flagDef.rollout with _ | rollout
    · rfl
    · rw [hres]
      simp [emptyStr]
  · intro hu ho
    have hres : resolveIdentifier (some c) = some emptyStr := by
      show jsNullish c.userId (jsNullish c.organizationId c.email) = some emptyStr
      rw [hu, ho]
      rfl
    refine ⟨hres, ?_⟩
    unfold evaluateRollout
    rcases flagDef.rollout with _ | rollout
    · rfl
    · rw [hres]
      simp [emptyStr]

theorem empty_identifier_anonymous_witness :
    (resolveIdentifier (some c10a) = some emptyStr ∧
        evaluateRollout c10Def c10Name (some c10a) = none) ∧
      (resolveIdentifier (some c10b) = some emptyStr ∧
        evaluateRollout c10Def c10Name (some c10b) = none) :=
  ⟨(empty_identifier_anonymous c10Def c10Name c10a).1 rfl,
   (empty_identifier_anonymous c10Def c10Name c10b).2 rfl rfl⟩

/-- C3: the rollout evaluator follows the five-step algorithm: null for
anonymous contexts (no resolvable identifier — an absent one or the
kept-but-falsy empty string), then blocklist with the default value
(blocklist wins over allowlist), then allowlist with the enabled value,
then the hash-below-percentage bucket with the enabled value, else
null; the enabled value is true for boolean flags and the unchanged
default otherwise. -/
theorem evaluateRollout_algorithm :
    ∀ (flagDef : FlagDefinition) (rollout : RolloutConfig) (flagName : String)
      (context : Option FlagContext),
      flagDef.rollout = some rollout →
      ((resolveIdentifier context = none ∨ resolveIdentifier context = some emptyStr) →
          evaluateRollout flagDef flagName context = none) ∧
      (∀ identifier, resolveIdentifier context = some identifier →
        identifier ≠ emptyStr →
        (optIncludes rollout.blocklist identifier = true →
            evaluateRollout flagDef flagName context =
              some { value := flagDef.defaultValue, reason := "blocklist",
                     flagName := flagName }) ∧
        (optIncludes rollout.blocklist identifier = false →
            optIncludes rollout.allowlist identifier = true →
            evaluateRollout flagDef flagName context =
              some { value := enabledValue flagDef.defaultValue,
                     reason := "allowlist", flagName := flagName }) ∧
        (optIncludes rollout.blocklist identifier = false →
            optIncludes rollout.allowlist identifier = false →
            hashToPercentage (flagName ++ ":" ++ identifier) < rollout.percentage →
            evaluateRollout flagDef flagName context =
              some { value := enabledValue flagDef.defaultValue,
                     reason := "rollout", flagName := flagName }) ∧
        (optIncludes rollout.blocklist identifier = false →
            optIncludes rollout.allowlist identifier = false →
            ¬ hashToPercentage (flagName ++ ":" ++ identifier) < rollout.percentage →
            evaluateRollout flagDef flagName context = none)) ∧
      (∀ b, flagDef.defaultValue = FlagValue.bool b →
          enabledValue flagDef.defaultValue = FlagValue.bool true) ∧
      ((∀ b, flagDef.defaultValue ≠ FlagValue.bool b) →
          enabledValue flagDef.defaultValue = flagDef.defaultValue) := by
  intro flagDef rollout flagName context hro
  refine ⟨?_, ?_, ?_, ?_⟩
  · intro hid
    unfold evaluateRollout
    rw [hro]
    rcases hid with hid | hid <;> (rw [hid]; try rfl)
  · intro identifier hid hne
    refine ⟨?_, ?_, ?_, ?_⟩
    · intro hb
      unfold evaluateRollout
      rw [hro, hid]
      simp [emptyStr] at hne
      simp [hne, hb]
    · intro hb ha
      unfold evaluateRollout
      rw [hro, hid]
      simp [emptyStr] at hne
      simp [hne, hb, ha]
    · intro hb ha hlt
      unfold evaluateRollout
      rw [hro, hid]
      simp [emptyStr] at hne
      simp [hne, hb, ha, hlt]
    · intro hb ha hlt
      unfold evaluateRollout
      rw [hro, hid]
      simp [emptyStr] at hne
      simp [hne, hb, ha, hlt]
  · intro b hb
    rw [hb]
    rfl
  · intro hnb
    cases hdv : flagDef.defaultValue with
    | bool b => exact absurd hdv (hnb b)
    | num n => rfl
    | str s => rfl

set_option maxRecDepth 100000 in
theorem evaluateRollout_algorithm_witness :
    evaluateRollout rDef rName none = none ∧
      evaluateRollout rDef rName ctxCarol =
        some { value := FlagValue.bool false, reason := "blocklist",
               flagName := rName } ∧
      evaluateRollout rDef rName ctxAlice =
        some { value := FlagValue.bool true, reason := "allowlist",
               flagName := rName } ∧
      evaluateRollout rDef rName ctxHit =
        some { value := FlagValue.bool true, reason := "rollout",
               flagName := rName } ∧
      evaluateRollout rDef rName ctxMiss = none :=
  ⟨(evaluateRollout_algorithm rDef rRoll rName none rfl).1 (Or.inl rfl),
   ((evaluateRollout_algorithm rDef rRoll rName ctxCarol rfl).2.1
      ("carol") rfl (by decide)).1 (by decide),
   ((evaluateRollout_algorithm rDef rRoll rName ctxAlice rfl).2.1
      ("alice") rfl (by decide)).2.1 (by decide) (by decide),
   ((evaluateRollout_algorithm rDef rRoll rName ctxHit rfl).2.1
      ("user-42") rfl (by decide)).2.2.1 (by decide) (by decide) (by decide),
   ((evaluateRollout_algorithm rDef rRoll rName ctxMiss rfl).2.1
      ("user-99") rfl (by decide)).2.2.2 (by decide) (by decide) (by decide)⟩

/-- C5 counterexample: the claim predicts every non-alphanumeric
character of the flag name becomes an underscore, but the source
replaces hyphens only, so a name with a dot keeps the dot in its key. -/
theorem envKey_counterexample :
    envKeyOf c5name = "FLAG_A.B" ∧ specEnvKeyClaimed c5name = "FLAG_A_B" ∧
      ¬ (envKeyOf c5name = specEnvKeyClaimed c5name) :=
  ⟨rfl, rfl, by decide⟩

/-- C5 amended: the external-config key is FLAG_ followed by the flag
name uppercased with hyphens — and hyphens only — replaced by
underscores; other non-alphanumeric characters are kept verbatim. -/
theorem envKey_amended :
    ∀ flagName : String, envKeyOf flagName = specEnvKeyAmended flagName := by
  intro flagName
  show "FLAG_" ++ String.mk ((flagName.data.map Char.toUpper).map
      (fun c => if c = '-' then '_' else c)) =
    "FLAG_" ++ String.mk (flagName.data.map
      (fun c => if Char.toUpper c = '-' then '_' else Char.toUpper c))
  rw [List.map_map]
  rfl

/-- C6 counterexample: for a number-typed flag whose external-config
text is not numeric, the claim predicts fall-through to the satisfiable
environment tier (value 7, reason environment); the code instead
returns the Number coercion of the text with reason override and never
falls through. -/
theorem externalConfig_no_fallthrough_counterexample :
    getFlag nDefs [] devEnv nHost nName none =
        Except.ok { value := FlagValue.num (nHost.jsNumber ("abc")),
                    reason := "override", flagName := nName } ∧
      ¬ (getFlag nDefs [] devEnv nHost nName none =
          Except.ok { value := FlagValue.num 7, reason := "environment",
                      flagName := nName }) :=
  ⟨rfl, by decide⟩

/-- C6 amended: whenever the external-config layer supplies any text
for a registered flag with no runtime override, getFlag returns the
parsed value with reason override and does not fall through, whether or
not the text is coercible; booleans parse true and 1 to true and every
other text to false, number flags receive the Number coercion of the
text (NaN included), string flags receive the text verbatim. -/
theorem externalConfig_parse_amended :
    ∀ (defs : List (String × FlagDefinition)) (ovr : List (String × FlagValue))
      (env : String) (host : HostEnv) (flagName : String)
      (context : Option FlagContext) (flagDef : FlagDefinition) (ev : String),
      List.lookup flagName defs = some flagDef →
      List.lookup flagName ovr = none →
      host.envVars (envKeyOf flagName) = some ev →
      getFlag defs ovr env host flagName context =
          Except.ok { value := parseEnvValue flagDef.defaultValue host ev,
                      reason := "override", flagName := flagName } ∧
        (∀ b, flagDef.defaultValue = FlagValue.bool b →
          parseEnvValue flagDef.defaultValue host ev =
            FlagValue.bool (ev == "true" || ev == "1")) ∧
        (∀ n, flagDef.defaultValue = FlagValue.num n →
          parseEnvValue flagDef.defaultValue host ev =
            FlagValue.num (host.jsNumber ev)) ∧
        (∀ s, flagDef.defaultValue = FlagValue.str s →
          parseEnvValue flagDef.defaultValue host ev = FlagValue.str ev) := by
  intro defs ovr env host flagName context flagDef ev hdef hovr henv
  refine ⟨?_, ?_, ?_, ?_⟩
  · simp only [getFlag, hdef, hovr, henv]
  · intro b hb
    rw [hb]
    rfl
  · intro n hn
    rw [hn]
    rfl
  · intro s hs
    rw [hs]
    rfl

set_option maxRecDepth 100000 in
theorem externalConfig_parse_amended_witness :
    getFlag nDefs [] devEnv nHost nName none =
        Except.ok { value := FlagValue.num 0, reason := "override",
                    flagName := nName } ∧
      parseEnvValue nDef.defaultValue nHost ("abc") =
        FlagValue.num (nHost.jsNumber ("abc")) :=
  ⟨(externalConfig_parse_amended nDefs [] devEnv nHost nName none nDef ("abc")
      (by decide) rfl (by decide)).1,
   (externalConfig_parse_amended nDefs [] devEnv nHost nName none nDef ("abc")
      (by decide) rfl (by decide)).2.2.1 5 rfl⟩

end GmackoFlags
